import Mathlib

/-!
Shallow embedding of the scheduling and distributed-lock core of the
repository (src/core/Schedule.ts): the Scheduled and SchedulerLock method
decorators, the lock-guard wrapper installed by SchedulerLock, and the
scheduler registrar (injectSchedule / execInjectSchedule), together with
the per-firing cron callback.

JavaScript values that matter to the control flow are embedded explicitly:
promise outcomes become PResult, thrown or rejected errors are string
messages, and configuration values distinguish JS truthiness from the
helper isEmpty test used by the source (an empty object is truthy yet
empty). External collaborators that are not part of the source tree (the
redis Locker of util/Locker.ts, the IOC container of think_container, the
metadata store) enter as parameters or as small state types, following the
interfaces described by the spec.
-/

namespace Kalaviuka

/-- Thrown or rejected JavaScript errors, identified by their message. -/
abbrev JSError := String

/-- JavaScript values produced by guarded methods (undefined is the value
a skipped invocation resolves to). -/
inductive JSVal where
  | undef
  | num (n : Int)
  | str (s : String)
deriving DecidableEq

/-- Opaque redis connection options (host descriptor); the wrapper never
inspects the payload, only passes it to the lock client factory. -/
abbrev RedisOptions := String

/-- A JavaScript value returned by app.config for one lookup key, as the
wrapper can observe it: absent (undefined or null), the empty string, an
empty but truthy object, or a non-empty options object. -/
inductive ConfigVal where
  | undef
  | emptyStr
  | emptyObj
  | opts (r : RedisOptions)
deriving DecidableEq

/-- JS truthiness of a config value: undefined, null and the empty string
are falsy; any object, even an empty one, is truthy. -/
def ConfigVal.truthy : ConfigVal → Bool
  | ConfigVal.undef => false
  | ConfigVal.emptyStr => false
  | ConfigVal.emptyObj => true
  | ConfigVal.opts _ => true

/-- The think_lib helper isEmpty test on a config value: absent values,
the empty string and an object with no keys are empty; a populated
options object is not. -/
def ConfigVal.isEmptyVal : ConfigVal → Bool
  | ConfigVal.opts _ => false
  | _ => true

/-- The JavaScript expression a or-else b: the first truthy operand wins. -/
def jsOr (a b : ConfigVal) : ConfigVal := if a.truthy then a else b

/-- Emptiness of a plain string per the helper isEmpty test. -/
def isEmptyStr (s : String) : Bool := if s = "" then true else false

/-- Emptiness of an optional string argument: undefined or the empty
string count as empty. -/
def isEmptyOptStr : Option String → Bool
  | none => true
  | some s => isEmptyStr s

/-- JS truthiness of an optional number: undefined and 0 are falsy. -/
def natOptTruthy : Option Nat → Bool
  | none => false
  | some n => if n = 0 then false else true

/-- Rendering of a possibly-undefined string inside a template literal:
undefined prints as the string undefined. -/
def jsTemplate : Option String → String
  | none => "undefined"
  | some s => s

/-- Outcome of an awaited JS promise: fulfilled with a value or rejected
with an error. -/
inductive PResult (α : Type) where
  | ok (a : α)
  | err (e : JSError)
deriving DecidableEq

/-- Whether a PResult is a fulfillment. -/
def PResult.isOk {α : Type} : PResult α → Bool
  | PResult.ok _ => true
  | PResult.err _ => false

/-- The application configuration visible through this.app.config with
type db, restricted to the two lookup keys the wrapper reads. -/
structure AppRef where
  cfgSchedulerLock : ConfigVal
  cfgRedis : ConfigVal
deriving DecidableEq

/-- The receiver (the JS this) of a wrapped method invocation: an identity
tag plus its application reference. -/
structure ThisArg where
  recvId : Nat
  app : AppRef
deriving DecidableEq

/-- The decoration target as the two decorators observe it through the
IOC container: its registered identifier, its constructor name, and its
registered component type. -/
structure Target where
  identifier : Option String
  ctorName : Option String
  componentType : Option String
deriving DecidableEq

/-- Behavior of the lock client during one wrapped invocation: the result
of a single-attempt lock, of a retrying waitLock, whether the unLock
capability is present, and the result of unLock. Modelled from the spec:
util/Locker.ts is not under src; the spec describes acquire-once,
acquire-with-retry and best-effort release primitives. -/
structure LockerBehavior where
  lockRes : PResult Bool
  waitLockRes : PResult Bool
  hasUnLock : Bool
  unLockRes : PResult Unit
deriving DecidableEq

/-- The data the SchedulerLock decorator closes over for its wrapper:
the resolved lock name, the three optional durations, and the name of the
wrapped method. -/
structure WrapperSpec where
  name : String
  lockTimeOut : Option Nat
  waitLockInterval : Option Nat
  waitLockTimeOut : Option Nat
  methodName : String
deriving DecidableEq

/-- One schedule registration record, as attached to the metadata store:
the cron expression and the decorated method name. -/
structure ScheduleMeta where
  cron : String
  method : String
deriving DecidableEq

/-- The reserved metadata key for schedule registrations. Modelled from
the spec: core/Constants.ts is not under src; the key is an abstract
reserved name whose exact text never matters. -/
def SCHEDULE_KEY : String := "SCHEDULE_KEY"

/-- The metadata store, as a list of (key, methodName, data) records.
Modelled from the spec: the registry records data under a key for a
method and accumulates multiple registrations in order. -/
abbrev Registry := List (String × String × ScheduleMeta)

/-- Appending one registration record to the store. -/
def attachPropertyData (key : String) (data : ScheduleMeta)
    (propertyKey : String) (reg : Registry) : Registry :=
  reg ++ [(key, propertyKey, data)]

/-- A live component instance resolved from the container: an identity
tag and which method names are present and callable on it. -/
structure LiveInstance where
  instId : Nat
  callable : String → Bool

/-- A recurring timer created by the registrar: its diagnostic name and
its cron expression. -/
structure TimerJob where
  jobName : String
  cron : String
deriving DecidableEq

/-- Observable events of one run: log lines and the calls made to the
lock client and to the wrapped method. -/
inductive Event where
  | logInfo (msg : String)
  | logWarn (msg : String)
  | logError (msg : String)
  | logDebug (msg : String)
  | getInstanceCall (cfg : ConfigVal)
  | lockCall (name : String) (lockTimeOut : Option Nat)
  | waitLockCall (name : String) (lockTimeOut interval timeout : Option Nat)
  | invoke (recv : Nat) (method : String) (args : List JSVal)
  | unLockCall (name : String)
deriving DecidableEq

/-- How a wrapped call ends for its caller: the promise resolves with a
value or rejects with an error. -/
inductive Outcome where
  | resolved (v : JSVal)
  | rejected (e : JSError)
deriving DecidableEq

/-- Error message for an empty cron rule (Schedule.ts line 34). -/
def msgEmptyCron : String := "ScheduleJob rule is not defined"

/-- Error message for decorating a controller (Schedule.ts line 60). -/
def msgControllerForbidden : String :=
  "SchedulerLock decorator cannot be used in the controller class."

/-- Error message for missing redis configuration (Schedule.ts line 75,
with the quote characters of the original elided). -/
def msgMissingConfig : String :=
  "Missing redis server configuration. Please write a configuration item with the key name SchedulerLock or redis in the db.ts file."

/-- Error message for a failed client creation (Schedule.ts line 80). -/
def msgConnFailed (methodName : String) : String :=
  "Redis connection failed. The method " ++ methodName ++ " is not executed."

/-- Info line logged after acquisition (Schedule.ts line 99). -/
def msgLockerExecuted (name : String) : String :=
  "The locker " ++ name ++ " executed."

/-- Warning logged when acquisition fails (Schedule.ts line 113). -/
def msgAcqFailed (name methodName : String) : String :=
  "Redis lock " ++ name ++ " acquisition failed. The method " ++ methodName ++ " is not executed."

/-- Info line logged at each firing (Schedule.ts line 156). -/
def msgScheduleStarted (name : String) : String :=
  "The schedule job " ++ name ++ " started."

/-- Debug line logged at registration (Schedule.ts line 153). -/
def msgRegisterDebug (identifier method cron : String) : String :=
  "Register inject " ++ identifier ++ " schedule key: " ++ method ++ " => value: " ++ cron

/-- The Scheduled decorator factory (Schedule.ts lines 31 to 43): an empty
cron rule throws at once; otherwise the returned decorator attaches the
pair of cron and method name under the reserved key. -/
def Scheduled (cron : String) :
    PResult (String → Registry → Registry) :=
  if isEmptyStr cron then PResult.err msgEmptyCron
  else PResult.ok (fun propertyKey reg =>
    attachPropertyData SCHEDULE_KEY ⟨cron, propertyKey⟩ propertyKey reg)

/-- The identifier fallback of Schedule.ts line 64: the registered
identifier if truthy, else the constructor name, else the empty string. -/
def resolveIdentifier (t : Target) : String :=
  match t.identifier with
  | some s => if isEmptyStr s then t.ctorName.getD "" else s
  | none => t.ctorName.getD ""

/-- The diagnostic job name of Schedule.ts lines 147 to 149: the template
literal of the registered identifier, an underscore, and the method. -/
def scheduleJobName (t : Target) (method : String) : String :=
  jsTemplate t.identifier ++ "_" ++ method

/-- The SchedulerLock decorator body (Schedule.ts lines 56 to 119) up to
building the wrapper closure: reject controllers, default the lock name
to identifier underscore methodName when the given name is empty, and
record the durations for the wrapper. -/
def SchedulerLockDecorate (nameArg : Option String)
    (lockTimeOut waitLockInterval waitLockTimeOut : Option Nat)
    (t : Target) (methodName : String) : PResult WrapperSpec :=
  if t.componentType = some "CONTROLLER" then
    PResult.err msgControllerForbidden
  else
    let name := if isEmptyOptStr nameArg then
        resolveIdentifier t ++ "_" ++ methodName
      else nameArg.getD ""
    PResult.ok ⟨name, lockTimeOut, waitLockInterval, waitLockTimeOut, methodName⟩

/-- The dispatch test of Schedule.ts line 82: the retrying primitive is
used when the polling interval or the give-up timeout is truthy. -/
def useWaitLock (w : WrapperSpec) : Bool :=
  natOptTruthy w.waitLockInterval || natOptTruthy w.waitLockTimeOut

/-- The acquisition result the wrapper awaits: waitLock when dispatching
to the retrying primitive, the single-attempt lock otherwise. -/
def acqRes (w : WrapperSpec) (lc : LockerBehavior) : PResult Bool :=
  if useWaitLock w then lc.waitLockRes else lc.lockRes

/-- The acquisition call event matching the dispatch. -/
def acqEvent (w : WrapperSpec) : Event :=
  if useWaitLock w then
    Event.waitLockCall w.name w.lockTimeOut w.waitLockInterval w.waitLockTimeOut
  else Event.lockCall w.name w.lockTimeOut

/-- Events of the finally block of Schedule.ts lines 105 to 111: when the
unLock capability is present it is called and a rejection is logged and
swallowed; otherwise nothing happens. -/
def finallyEvents (w : WrapperSpec) (lc : LockerBehavior) : List Event :=
  if lc.hasUnLock then
    match lc.unLockRes with
    | PResult.ok _ => [Event.unLockCall w.name]
    | PResult.err e => [Event.unLockCall w.name, Event.logError e]
  else []

/-- The configuration resolution of Schedule.ts line 73: the value for the
SchedulerLock key or-else the value for the redis key. -/
def resolveRedisOptions (thisArg : ThisArg) : ConfigVal :=
  jsOr thisArg.app.cfgSchedulerLock thisArg.app.cfgRedis

/-- One invocation of the wrapper installed by SchedulerLock (Schedule.ts
lines 71 to 116). Parameters: the closed-over wrapper data, the lock
client factory (Locker.getInstance), the original method body, the
receiver and the call arguments. Returns the outcome seen by the caller
and the trace of observable events, in order. -/
def wrapperCall (w : WrapperSpec)
    (getInstance : ConfigVal → Option LockerBehavior)
    (value : ThisArg → List JSVal → PResult JSVal)
    (thisArg : ThisArg) (args : List JSVal) : Outcome × List Event :=
  let redisOptions := resolveRedisOptions thisArg
  if redisOptions.isEmptyVal then
    (Outcome.rejected msgMissingConfig, [])
  else
    match getInstance redisOptions with
    | none =>
        (Outcome.rejected (msgConnFailed w.methodName),
         [Event.getInstanceCall redisOptions])
    | some lc =>
        let pre := [Event.getInstanceCall redisOptions, acqEvent w]
        match acqRes w lc with
        | PResult.err e =>
            (Outcome.resolved JSVal.undef,
             pre ++ [Event.logError e,
               Event.logWarn (msgAcqFailed w.name w.methodName)])
        | PResult.ok false =>
            (Outcome.resolved JSVal.undef,
             pre ++ [Event.logWarn (msgAcqFailed w.name w.methodName)])
        | PResult.ok true =>
            let body := [Event.logInfo (msgLockerExecuted w.name),
              Event.invoke thisArg.recvId w.methodName args]
            match value thisArg args with
            | PResult.ok res =>
                (Outcome.resolved res, pre ++ body ++ finallyEvents w lc)
            | PResult.err e =>
                (Outcome.rejected e, pre ++ body ++ finallyEvents w lc)

/-- One firing of the cron callback of Schedule.ts lines 154 to 163: log
the start line, invoke the bound method with no arguments, return its
value on fulfillment; on rejection log the error and fall through, so the
callback itself always resolves. -/
def cronJobFire (name : String) (inst : LiveInstance) (method : String)
    (invokeRes : PResult JSVal) : Outcome × List Event :=
  match invokeRes with
  | PResult.ok res =>
      (Outcome.resolved res,
       [Event.logInfo (msgScheduleStarted name),
        Event.invoke inst.instId method []])
  | PResult.err e =>
      (Outcome.resolved JSVal.undef,
       [Event.logInfo (msgScheduleStarted name),
        Event.invoke inst.instId method [], Event.logError e])

/-- The appStart callback body of execInjectSchedule (Schedule.ts lines
146 to 164): resolve the instance, and create and start one timer exactly
when an instance exists, the method is callable on it and the cron rule
is truthy; otherwise do nothing, producing no event and no error. -/
def execInjectSchedule (t : Target) (inst : Option LiveInstance)
    (method : String) (cron : String) (appDebug : Bool) :
    Option TimerJob × List Event :=
  let name := scheduleJobName t method
  match inst with
  | none => (none, [])
  | some i =>
      if i.callable method then
        if cron = "" then (none, [])
        else
          (some ⟨name, cron⟩,
           if appDebug then
             [Event.logDebug (msgRegisterDebug (jsTemplate t.identifier) method cron)]
           else [])
      else (none, [])

/-- Concatenation of the images of a list under a list-valued function;
the shape of the nested for loops of injectSchedule. -/
def concatMap {α β : Type} (f : α → List β) : List α → List β
  | [] => []
  | a :: as => f a ++ concatMap f as

/-- The registrar walk of injectSchedule (Schedule.ts lines 176 to 186)
after the appStart signal: for every method key and every registration
record under it, when the cron rule and the key are truthy run
execInjectSchedule; collect the created timers and the emitted events in
iteration order. -/
def injectSchedule (metaDatas : List (String × List ScheduleMeta))
    (inst : Option LiveInstance) (t : Target) (appDebug : Bool) :
    List TimerJob × List Event :=
  (concatMap (fun p => concatMap (fun val =>
      if val.cron ≠ "" ∧ p.1 ≠ "" then
        (execInjectSchedule t inst p.1 val.cron appDebug).1.toList
      else []) p.2) metaDatas,
   concatMap (fun p => concatMap (fun val =>
      if val.cron ≠ "" ∧ p.1 ≠ "" then
        (execInjectSchedule t inst p.1 val.cron appDebug).2
      else []) p.2) metaDatas)

/-- Registrar behavior in the words of the spec, for comparison: entries
without a live instance or whose method is not callable are skipped and
produce nothing, and every other entry with a non-empty cron expression
yields its own timer under the diagnostic name. -/
def specRegistrarJobs (metaDatas : List (String × List ScheduleMeta))
    (inst : Option LiveInstance) (t : Target) : List TimerJob :=
  match inst with
  | none => []
  | some i =>
      concatMap (fun p => concatMap (fun val =>
        if i.callable p.1 ∧ val.cron ≠ "" then
          [⟨scheduleJobName t p.1, val.cron⟩]
        else []) p.2) metaDatas

/-- Recognizer for single-attempt acquisition call events. -/
def isLockCallEv : Event → Bool
  | Event.lockCall _ _ => true
  | _ => false

/-- Recognizer for retrying acquisition call events. -/
def isWaitLockCallEv : Event → Bool
  | Event.waitLockCall _ _ _ _ => true
  | _ => false

/-- Concrete lock client that grants every acquisition and releases
cleanly; used to evaluate the wrapper at concrete inputs. -/
def lcAllOk : LockerBehavior := ⟨PResult.ok true, PResult.ok true, true, PResult.ok ()⟩

/-- Concrete lock client that denies every acquisition. -/
def lcDenied : LockerBehavior := ⟨PResult.ok false, PResult.ok false, true, PResult.ok ()⟩

/-- Constant lock client factory. -/
def giOf (lc : LockerBehavior) : ConfigVal → Option LockerBehavior := fun _ => some lc

/-- Concrete receiver whose SchedulerLock config key holds a populated
options object. -/
def thisGood : ThisArg := ⟨0, ⟨ConfigVal.opts "redis", ConfigVal.undef⟩⟩

/-- Concrete wrapper data with no durations set. -/
def wPlain : WrapperSpec := ⟨"Svc_run", none, none, none, "run"⟩

/-- Claim C4: calling the Scheduled decorator factory with an empty cron
expression raises the configuration error immediately, before any
metadata is recorded; with a non-empty cron expression no error is raised
and applying the returned decorator records exactly the pair of cron and
method name under the reserved schedule key. -/
theorem scheduled_fail_fast (cron pk : String) (reg : Registry) :
    ((Scheduled cron).isOk = true ↔ cron ≠ "")
    ∧ (cron = "" → Scheduled cron = PResult.err msgEmptyCron)
    ∧ (∀ d, Scheduled cron = PResult.ok d →
        d pk reg = reg ++ [(SCHEDULE_KEY, pk, ⟨cron, pk⟩)]) := by
  by_cases h : cron = ""
  · subst h
    simp [Scheduled, isEmptyStr, PResult.isOk]
  · simp only [Scheduled, isEmptyStr, if_neg h, if_pos rfl]
    refine ⟨by simp [PResult.isOk, h], by simp [h], ?_⟩
    intro d hd
    cases hd
    simp [attachPropertyData]

/-- Witness for scheduled_fail_fast at concrete inputs: the empty rule is
rejected with the configuration error and a six-field rule is accepted. -/
theorem scheduled_fail_fast_witness :
    Scheduled "" = PResult.err msgEmptyCron
    ∧ (Scheduled "0 * * * * *").isOk = true :=
  ⟨(scheduled_fail_fast "" "run" []).2.1 rfl,
   (scheduled_fail_fast "0 * * * * *" "run" []).1.mpr (by decide)⟩

/-- Claim C5: applying the SchedulerLock decorator to a method of a
component registered as a controller raises the configuration error and
produces no wrapper; for every other component type the decoration
succeeds. -/
theorem schedulerLock_controller_forbidden (nameArg : Option String)
    (lt wi wt : Option Nat) (t : Target) (m : String) :
    ((SchedulerLockDecorate nameArg lt wi wt t m).isOk = true ↔
      t.componentType ≠ some "CONTROLLER")
    ∧ (t.componentType = some "CONTROLLER" →
        SchedulerLockDecorate nameArg lt wi wt t m =
          PResult.err msgControllerForbidden) := by
  by_cases h : t.componentType = some "CONTROLLER" <;>
    simp [SchedulerLockDecorate, h, PResult.isOk]

/-- Witness for schedulerLock_controller_forbidden at concrete inputs: a
controller target is rejected, a component target is accepted. -/
theorem schedulerLock_controller_forbidden_witness :
    SchedulerLockDecorate none none none none
        ⟨some "UserCtl", some "UserCtl", some "CONTROLLER"⟩ "run" =
      PResult.err msgControllerForbidden
    ∧ (SchedulerLockDecorate none none none none
        ⟨some "Svc", some "Svc", some "COMPONENT"⟩ "run").isOk = true :=
  ⟨(schedulerLock_controller_forbidden none none none none
      ⟨some "UserCtl", some "UserCtl", some "CONTROLLER"⟩ "run").2 rfl,
   (schedulerLock_controller_forbidden none none none none
      ⟨some "Svc", some "Svc", some "COMPONENT"⟩ "run").1.mpr (by decide)⟩

/-- Claim C7: every firing of the cron callback logs the start line and
invokes the bound method with no arguments; a rejection of the invoked
method is logged inside the callback and the callback still resolves, so
the error never reaches the timer driver. -/
theorem cron_firing_isolated (nm : String) (i : LiveInstance)
    (meth : String) (v : JSVal) (e : JSError) :
    cronJobFire nm i meth (PResult.ok v) =
      (Outcome.resolved v,
       [Event.logInfo (msgScheduleStarted nm), Event.invoke i.instId meth []])
    ∧ cronJobFire nm i meth (PResult.err e) =
      (Outcome.resolved JSVal.undef,
       [Event.logInfo (msgScheduleStarted nm), Event.invoke i.instId meth [],
        Event.logError e]) :=
  ⟨rfl, rfl⟩

/-- Claim C8: when no explicit lock name is supplied and the target has a
truthy registered identifier, the decorator defaults the lock name to the
identifier, an underscore and the method name, and the diagnostic job
name of the registrar is the same string. -/
theorem default_lock_name_matches (t : Target) (m : String)
    (lt wi wt : Option Nat) (id : String)
    (hid : t.identifier = some id) (hne : id ≠ "")
    (hc : t.componentType ≠ some "CONTROLLER") :
    SchedulerLockDecorate none lt wi wt t m =
      PResult.ok ⟨id ++ "_" ++ m, lt, wi, wt, m⟩
    ∧ scheduleJobName t m = id ++ "_" ++ m := by
  constructor
  · simp [SchedulerLockDecorate, hc, isEmptyOptStr, resolveIdentifier, hid,
      isEmptyStr, hne]
  · simp [scheduleJobName, hid, jsTemplate]

/-- Witness for default_lock_name_matches at a concrete service target
and method. -/
theorem default_lock_name_matches_witness :
    SchedulerLockDecorate none none none none
        ⟨some "MyService", some "MyService", some "COMPONENT"⟩ "run" =
      PResult.ok ⟨"MyService" ++ "_" ++ "run", none, none, none, "run"⟩
    ∧ scheduleJobName ⟨some "MyService", some "MyService", some "COMPONENT"⟩
        "run" = "MyService" ++ "_" ++ "run" :=
  default_lock_name_matches
    ⟨some "MyService", some "MyService", some "COMPONENT"⟩ "run"
    none none none "MyService" rfl (by decide) (by decide)

/-- Claim C1: when the lock client resolves and acquisition fails, either
by a denied grant or by a rejected acquisition call (the backend being
unreachable), the wrapper logs the warning naming the lock and the
method, never invokes the original method, and rejects nothing to its
caller. -/
theorem lock_failure_skips (w : WrapperSpec)
    (gi : ConfigVal → Option LockerBehavior)
    (value : ThisArg → List JSVal → PResult JSVal)
    (thisArg : ThisArg) (args : List JSVal) (lc : LockerBehavior)
    (hcfg : (resolveRedisOptions thisArg).isEmptyVal = false)
    (hgi : gi (resolveRedisOptions thisArg) = some lc)
    (hacq : acqRes w lc = PResult.ok false ∨ ∃ e, acqRes w lc = PResult.err e) :
    (∀ e, (wrapperCall w gi value thisArg args).1 ≠ Outcome.rejected e)
    ∧ Event.logWarn (msgAcqFailed w.name w.methodName) ∈
        (wrapperCall w gi value thisArg args).2
    ∧ (∀ r meth a, Event.invoke r meth a ∉
        (wrapperCall w gi value thisArg args).2) := by
  by_cases hw : useWaitLock w <;>
    rcases hacq with h | ⟨e, h⟩ <;>
    simp [wrapperCall, hcfg, hgi, h, acqEvent, hw]

/-- Witness for lock_failure_skips: a denied grant at a concrete receiver
with valid configuration. -/
theorem lock_failure_skips_witness :
    (resolveRedisOptions thisGood).isEmptyVal = false
    ∧ ((∀ e, (wrapperCall wPlain (giOf lcDenied)
          (fun _ _ => PResult.ok (JSVal.num 1)) thisGood []).1 ≠
          Outcome.rejected e)
      ∧ Event.logWarn (msgAcqFailed wPlain.name wPlain.methodName) ∈
          (wrapperCall wPlain (giOf lcDenied)
            (fun _ _ => PResult.ok (JSVal.num 1)) thisGood []).2
      ∧ (∀ r meth a, Event.invoke r meth a ∉
          (wrapperCall wPlain (giOf lcDenied)
            (fun _ _ => PResult.ok (JSVal.num 1)) thisGood []).2)) :=
  ⟨rfl,
   lock_failure_skips wPlain (giOf lcDenied)
     (fun _ _ => PResult.ok (JSVal.num 1)) thisGood [] lcDenied
     rfl rfl (Or.inl rfl)⟩

/-- Claim C10: when the lock client resolves and acquisition fails, the
promise returned by the wrapper resolves to undefined, whatever the
original method would have produced. -/
theorem lock_failure_resolves_undefined (w : WrapperSpec)
    (gi : ConfigVal → Option LockerBehavior)
    (value : ThisArg → List JSVal → PResult JSVal)
    (thisArg : ThisArg) (args : List JSVal) (lc : LockerBehavior)
    (hcfg : (resolveRedisOptions thisArg).isEmptyVal = false)
    (hgi : gi (resolveRedisOptions thisArg) = some lc)
    (hacq : acqRes w lc = PResult.ok false ∨ ∃ e, acqRes w lc = PResult.err e) :
    (wrapperCall w gi value thisArg args).1 = Outcome.resolved JSVal.undef := by
  rcases hacq with h | ⟨e, h⟩ <;> simp [wrapperCall, hcfg, hgi, h]

/-- Witness for lock_failure_resolves_undefined: the guarded method would
return the number 7, yet the skipped call resolves to undefined. -/
theorem lock_failure_resolves_undefined_witness :
    (resolveRedisOptions thisGood).isEmptyVal = false
    ∧ (wrapperCall wPlain (giOf lcDenied)
        (fun _ _ => PResult.ok (JSVal.num 7)) thisGood []).1 =
      Outcome.resolved JSVal.undef :=
  ⟨rfl,
   lock_failure_resolves_undefined wPlain (giOf lcDenied)
     (fun _ _ => PResult.ok (JSVal.num 7)) thisGood [] lcDenied
     rfl rfl (Or.inl rfl)⟩

/-- Claim C2: when acquisition succeeds the original method is invoked
with the original receiver and arguments; its fulfillment value is
returned and its rejection is re-raised to the caller; release is
attempted exactly when the unLock capability is present, and a rejected
release is logged while the outcome of the call is unchanged. -/
theorem lock_success_invokes_and_releases (w : WrapperSpec)
    (gi : ConfigVal → Option LockerBehavior)
    (value : ThisArg → List JSVal → PResult JSVal)
    (thisArg : ThisArg) (args : List JSVal) (lc : LockerBehavior)
    (hcfg : (resolveRedisOptions thisArg).isEmptyVal = false)
    (hgi : gi (resolveRedisOptions thisArg) = some lc)
    (hacq : acqRes w lc = PResult.ok true) :
    Event.invoke thisArg.recvId w.methodName args ∈
        (wrapperCall w gi value thisArg args).2
    ∧ (∀ v, value thisArg args = PResult.ok v →
        (wrapperCall w gi value thisArg args).1 = Outcome.resolved v)
    ∧ (∀ e, value thisArg args = PResult.err e →
        (wrapperCall w gi value thisArg args).1 = Outcome.rejected e)
    ∧ (lc.hasUnLock = true → Event.unLockCall w.name ∈
        (wrapperCall w gi value thisArg args).2)
    ∧ (lc.hasUnLock = false → ∀ n, Event.unLockCall n ∉
        (wrapperCall w gi value thisArg args).2)
    ∧ (lc.hasUnLock = true → ∀ e, lc.unLockRes = PResult.err e →
        Event.logError e ∈ (wrapperCall w gi value thisArg args).2) := by
  cases hv : value thisArg args <;>
    by_cases hw : useWaitLock w <;>
    by_cases hu : lc.hasUnLock <;>
    cases hur : lc.unLockRes <;>
    simp [wrapperCall, hcfg, hgi, hacq, hv, acqEvent, hw, finallyEvents, hu, hur]

/-- Witness for lock_success_invokes_and_releases: a granted lock at a
concrete receiver, a method returning the number 3, and a client with a
working release. -/
theorem lock_success_invokes_and_releases_witness :
    (resolveRedisOptions thisGood).isEmptyVal = false
    ∧ (Event.invoke thisGood.recvId wPlain.methodName [] ∈
        (wrapperCall wPlain (giOf lcAllOk)
          (fun _ _ => PResult.ok (JSVal.num 3)) thisGood []).2
      ∧ (∀ v, (fun (_ : ThisArg) (_ : List JSVal) => PResult.ok (JSVal.num 3))
            thisGood [] = PResult.ok v →
          (wrapperCall wPlain (giOf lcAllOk)
            (fun _ _ => PResult.ok (JSVal.num 3)) thisGood []).1 =
            Outcome.resolved v)
      ∧ (∀ e, (fun (_ : ThisArg) (_ : List JSVal) => PResult.ok (JSVal.num 3))
            thisGood [] = PResult.err e →
          (wrapperCall wPlain (giOf lcAllOk)
            (fun _ _ => PResult.ok (JSVal.num 3)) thisGood []).1 =
            Outcome.rejected e)
      ∧ (lcAllOk.hasUnLock = true → Event.unLockCall wPlain.name ∈
          (wrapperCall wPlain (giOf lcAllOk)
            (fun _ _ => PResult.ok (JSVal.num 3)) thisGood []).2)
      ∧ (lcAllOk.hasUnLock = false → ∀ n, Event.unLockCall n ∉
          (wrapperCall wPlain (giOf lcAllOk)
            (fun _ _ => PResult.ok (JSVal.num 3)) thisGood []).2)
      ∧ (lcAllOk.hasUnLock = true → ∀ e, lcAllOk.unLockRes = PResult.err e →
          Event.logError e ∈ (wrapperCall wPlain (giOf lcAllOk)
            (fun _ _ => PResult.ok (JSVal.num 3)) thisGood []).2)) :=
  ⟨rfl,
   lock_success_invokes_and_releases wPlain (giOf lcAllOk)
     (fun _ _ => PResult.ok (JSVal.num 3)) thisGood [] lcAllOk
     rfl rfl rfl⟩

/-- Counterexample to claim C3: with an empty but truthy object under the
SchedulerLock key and a populated options object under the redis key, the
call rejects with the configuration error even though the second key
resolves non-empty, because the or-else resolution picks the first truthy
value, not the first non-empty one. -/
theorem config_first_nonempty_cex :
    (wrapperCall ⟨"Svc_run", none, none, none, "run"⟩
        (giOf lcAllOk) (fun _ _ => PResult.ok (JSVal.num 1))
        ⟨0, ⟨ConfigVal.emptyObj, ConfigVal.opts "redis"⟩⟩ []) =
      (Outcome.rejected msgMissingConfig, [])
    ∧ (ConfigVal.opts "redis").isEmptyVal = false :=
  ⟨rfl, rfl⟩

/-- Claim C3 as amended: the configuration is resolved by the or-else of
the two lookup keys, the first truthy value winning; when the winning
value is empty the call rejects immediately with the configuration error
and nothing else happens, and when it is non-empty the lock client is
requested for exactly that winning value. -/
theorem config_resolution_amended (w : WrapperSpec)
    (gi : ConfigVal → Option LockerBehavior)
    (value : ThisArg → List JSVal → PResult JSVal)
    (thisArg : ThisArg) (args : List JSVal) :
    ((resolveRedisOptions thisArg).isEmptyVal = true →
      wrapperCall w gi value thisArg args =
        (Outcome.rejected msgMissingConfig, []))
    ∧ ((resolveRedisOptions thisArg).isEmptyVal = false →
      Event.getInstanceCall (resolveRedisOptions thisArg) ∈
        (wrapperCall w gi value thisArg args).2) := by
  constructor
  · intro h
    simp [wrapperCall, h]
  · intro h
    cases hgi : gi (resolveRedisOptions thisArg) with
    | none => simp [wrapperCall, h, hgi]
    | some lc =>
      cases hacq : acqRes w lc with
      | err e => simp [wrapperCall, h, hgi, hacq]
      | ok b =>
        cases b
        · simp [wrapperCall, h, hgi, hacq]
        · cases hv : value thisArg args <;>
            simp [wrapperCall, h, hgi, hacq, hv]

/-- Witness for config_resolution_amended: both keys absent makes the
call reject with the configuration error, and a populated first key is
the value handed to the client factory. -/
theorem config_resolution_amended_witness :
    ((resolveRedisOptions ⟨0, ⟨ConfigVal.undef, ConfigVal.undef⟩⟩).isEmptyVal = true
      → wrapperCall wPlain (giOf lcAllOk) (fun _ _ => PResult.ok JSVal.undef)
          ⟨0, ⟨ConfigVal.undef, ConfigVal.undef⟩⟩ [] =
        (Outcome.rejected msgMissingConfig, []))
    ∧ wrapperCall wPlain (giOf lcAllOk) (fun _ _ => PResult.ok JSVal.undef)
        ⟨0, ⟨ConfigVal.undef, ConfigVal.undef⟩⟩ [] =
      (Outcome.rejected msgMissingConfig, [])
    ∧ Event.getInstanceCall (resolveRedisOptions thisGood) ∈
        (wrapperCall wPlain (giOf lcAllOk)
          (fun _ _ => PResult.ok JSVal.undef) thisGood []).2 :=
  ⟨(config_resolution_amended wPlain (giOf lcAllOk)
      (fun _ _ => PResult.ok JSVal.undef)
      ⟨0, ⟨ConfigVal.undef, ConfigVal.undef⟩⟩ []).1,
   (config_resolution_amended wPlain (giOf lcAllOk)
      (fun _ _ => PResult.ok JSVal.undef)
      ⟨0, ⟨ConfigVal.undef, ConfigVal.undef⟩⟩ []).1 rfl,
   (config_resolution_amended wPlain (giOf lcAllOk)
      (fun _ _ => PResult.ok JSVal.undef) thisGood []).2 rfl⟩

/-- Counterexample to claim C6: a polling interval was specified at
decoration time, namely zero, yet the invocation performs no retrying
acquisition call and exactly one single-attempt call, because the
dispatch tests JS truthiness and zero is falsy. -/
theorem acquisition_dispatch_cex :
    (some 0 : Option Nat).isSome = true
    ∧ (wrapperCall ⟨"Svc_run", none, some 0, none, "run"⟩
        (giOf lcAllOk) (fun _ _ => PResult.ok JSVal.undef)
        thisGood []).2.filter isWaitLockCallEv = []
    ∧ (wrapperCall ⟨"Svc_run", none, some 0, none, "run"⟩
        (giOf lcAllOk) (fun _ _ => PResult.ok JSVal.undef)
        thisGood []).2.filter isLockCallEv =
      [Event.lockCall "Svc_run" none] :=
  ⟨rfl, rfl, rfl⟩

/-- Claim C6 as amended: once the lock client resolves, the invocation
performs exactly one retrying acquisition call and no single-attempt call
when the polling interval or the give-up timeout is truthy, that is
present and nonzero, and exactly one single-attempt call and no retrying
call otherwise. -/
theorem acquisition_dispatch_amended (w : WrapperSpec)
    (gi : ConfigVal → Option LockerBehavior)
    (value : ThisArg → List JSVal → PResult JSVal)
    (thisArg : ThisArg) (args : List JSVal) (lc : LockerBehavior)
    (hcfg : (resolveRedisOptions thisArg).isEmptyVal = false)
    (hgi : gi (resolveRedisOptions thisArg) = some lc) :
    (useWaitLock w = true →
      (wrapperCall w gi value thisArg args).2.filter isWaitLockCallEv =
        [Event.waitLockCall w.name w.lockTimeOut w.waitLockInterval
          w.waitLockTimeOut]
      ∧ (wrapperCall w gi value thisArg args).2.filter isLockCallEv = [])
    ∧ (useWaitLock w = false →
      (wrapperCall w gi value thisArg args).2.filter isLockCallEv =
        [Event.lockCall w.name w.lockTimeOut]
      ∧ (wrapperCall w gi value thisArg args).2.filter isWaitLockCallEv
        = []) := by
  by_cases hw : useWaitLock w <;>
    (cases hacq : acqRes w lc with
    | err e =>
        simp [wrapperCall, hcfg, hgi, hacq, acqEvent, hw, isLockCallEv,
          isWaitLockCallEv]
    | ok b =>
        cases b <;>
          cases hv : value thisArg args <;>
          by_cases hu : lc.hasUnLock <;>
          cases hur : lc.unLockRes <;>
          simp [wrapperCall, hcfg, hgi, hacq, hv, acqEvent, hw, finallyEvents,
            hu, hur, isLockCallEv, isWaitLockCallEv])

/-- Witness for acquisition_dispatch_amended: with a truthy give-up
timeout the trace holds exactly one retrying call, and with no durations
exactly one single-attempt call. -/
theorem acquisition_dispatch_amended_witness :
    (useWaitLock ⟨"Svc_run", none, none, some 400, "run"⟩ = true →
      (wrapperCall ⟨"Svc_run", none, none, some 400, "run"⟩ (giOf lcAllOk)
          (fun _ _ => PResult.ok JSVal.undef) thisGood []).2.filter
          isWaitLockCallEv =
        [Event.waitLockCall "Svc_run" none none (some 400)]
      ∧ (wrapperCall ⟨"Svc_run", none, none, some 400, "run"⟩ (giOf lcAllOk)
          (fun _ _ => PResult.ok JSVal.undef) thisGood []).2.filter
          isLockCallEv = [])
    ∧ (wrapperCall ⟨"Svc_run", none, none, some 400, "run"⟩ (giOf lcAllOk)
        (fun _ _ => PResult.ok JSVal.undef) thisGood []).2.filter
        isWaitLockCallEv =
      [Event.waitLockCall "Svc_run" none none (some 400)]
    ∧ (wrapperCall wPlain (giOf lcAllOk)
        (fun _ _ => PResult.ok JSVal.undef) thisGood []).2.filter
        isLockCallEv = [Event.lockCall "Svc_run" none] :=
  ⟨(acquisition_dispatch_amended ⟨"Svc_run", none, none, some 400, "run"⟩
      (giOf lcAllOk) (fun _ _ => PResult.ok JSVal.undef) thisGood []
      lcAllOk rfl rfl).1,
   ((acquisition_dispatch_amended ⟨"Svc_run", none, none, some 400, "run"⟩
      (giOf lcAllOk) (fun _ _ => PResult.ok JSVal.undef) thisGood []
      lcAllOk rfl rfl).1 rfl).1,
   ((acquisition_dispatch_amended wPlain
      (giOf lcAllOk) (fun _ _ => PResult.ok JSVal.undef) thisGood []
      lcAllOk rfl rfl).2 rfl).1⟩

/-- concatMap rewrites along a pointwise equality of its function. -/
theorem concatMap_congr {α β : Type} (f g : α → List β) (l : List α)
    (h : ∀ x ∈ l, f x = g x) : concatMap f l = concatMap g l := by
  induction l with
  | nil => rfl
  | cons a as ih =>
      simp only [concatMap]
      rw [h a (by simp), ih (fun x hx => h x (by simp [hx]))]

/-- concatMap of the constantly empty function is empty. -/
theorem concatMap_nil_fun {α β : Type} (l : List α) :
    concatMap (fun _ => ([] : List β)) l = [] := by
  induction l with
  | nil => rfl
  | cons a as ih => simp [concatMap, ih]

/-- The registrar walk with no resolvable instance produces no timer and
no event. -/
theorem injectSchedule_none_eq (metaDatas : List (String × List ScheduleMeta))
    (t : Target) (d : Bool) :
    injectSchedule metaDatas none t d = ([], []) := by
  simp [injectSchedule, execInjectSchedule, Option.toList, concatMap_nil_fun]

/-- Claim C9: the registrar walk never raises (it is a total function into
timer lists), entries without a live instance or whose method is not
callable on it contribute no timer and no event, and the timers created
are exactly one per remaining entry whose cron expression is non-empty,
matching the spec description specRegistrarJobs. The hypothesis records
that registry keys are genuine method names, hence non-empty. -/
theorem registrar_skips_and_creates
    (metaDatas : List (String × List ScheduleMeta))
    (inst : Option LiveInstance) (t : Target) (appDebug : Bool)
    (h : ∀ p ∈ metaDatas, p.1 ≠ "") :
    (injectSchedule metaDatas inst t appDebug).1 =
      specRegistrarJobs metaDatas inst t
    ∧ (∀ meth cron, execInjectSchedule t none meth cron appDebug = (none, []))
    ∧ (∀ li meth cron, li.callable meth = false →
        execInjectSchedule t (some li) meth cron appDebug = (none, []))
    ∧ (inst = none → injectSchedule metaDatas inst t appDebug = ([], [])) := by
  refine ⟨?_, fun meth cron => rfl, ?_, ?_⟩
  · cases inst with
    | none =>
        rw [injectSchedule_none_eq]
        simp [specRegistrarJobs]
    | some i =>
        simp only [injectSchedule, specRegistrarJobs]
        apply concatMap_congr
        intro p hp
        apply concatMap_congr
        intro val hval
        have hp1 : p.1 ≠ "" := h p hp
        by_cases hc : val.cron = ""
        · simp [hc, execInjectSchedule]
        · cases hcall : i.callable p.1 <;>
            simp [hc, hp1, execInjectSchedule, hcall, Option.toList]
  · intro li meth cron hcall
    simp [execInjectSchedule, hcall]
  · intro hnone
    subst hnone
    exact injectSchedule_none_eq metaDatas t appDebug

/-- Witness for registrar_skips_and_creates: a registry with a callable
method, a method missing from the instance and an empty cron rule; only
the first entry yields a timer. -/
theorem registrar_skips_and_creates_witness :
    (∀ p ∈ [("run", [(⟨"0 * * * * *", "run"⟩ : ScheduleMeta)]),
        ("gone", [(⟨"0 * * * * *", "gone"⟩ : ScheduleMeta)]),
        ("idle", [(⟨"", "idle"⟩ : ScheduleMeta)])], p.1 ≠ "")
    ∧ (injectSchedule
        [("run", [⟨"0 * * * * *", "run"⟩]),
         ("gone", [⟨"0 * * * * *", "gone"⟩]),
         ("idle", [⟨"", "idle"⟩])]
        (some ⟨1, fun m => m == "run"⟩)
        ⟨some "Svc", some "Svc", some "COMPONENT"⟩ false).1 =
      specRegistrarJobs
        [("run", [⟨"0 * * * * *", "run"⟩]),
         ("gone", [⟨"0 * * * * *", "gone"⟩]),
         ("idle", [⟨"", "idle"⟩])]
        (some ⟨1, fun m => m == "run"⟩)
        ⟨some "Svc", some "Svc", some "COMPONENT"⟩ :=
  ⟨by decide,
   (registrar_skips_and_creates
     [("run", [⟨"0 * * * * *", "run"⟩]),
      ("gone", [⟨"0 * * * * *", "gone"⟩]),
      ("idle", [⟨"", "idle"⟩])]
     (some ⟨1, fun m => m == "run"⟩)
     ⟨some "Svc", some "Svc", some "COMPONENT"⟩ false (by decide)).1⟩

end Kalaviuka
